import Mathlib

/-!
Shallow embedding, in Lean 4, of the multi-agent scoring-and-aggregation
pipeline of the hackathon code-validation repository
(`ai_agents.py`, `ai_grader.py`, `core.py`, `judge_config.py`).

Numeric conventions: Python ints are modelled as `ℤ` (or `ℕ` for counts),
Python floats as `ℚ` (all float arithmetic in the relevant code paths is
exact decimal arithmetic on small values, so the rational model is exact up
to the usual caveat that CPython computes in binary doubles; the claims
under study never depend on a sub-ulp difference).  Python's `round`
(banker's rounding, half to even) is modelled exactly by `pyRound` /
`pyRound1` below.
-/

namespace HackGrader

/-- Python's built-in `round(x)`: nearest integer, ties to even. -/
def pyRound (q : ℚ) : ℤ :=
  let f := ⌊q⌋
  let r := q - (f : ℚ)
  if r < 1/2 then f
  else if 1/2 < r then f + 1
  else if f % 2 = 0 then f else f + 1

/-- Python's `round(x, 1)`: rounding to one decimal digit, ties to even. -/
def pyRound1 (q : ℚ) : ℚ := (pyRound (q * 10) : ℚ) / 10

/-- Python's `int(x)` on a float value: truncation toward zero (the floor
for non-negative arguments, the ceiling for negative ones). -/
def pyTrunc (q : ℚ) : ℤ := if q < 0 then -⌊-q⌋ else ⌊q⌋

/-- The score clamp `max(0, min(score, 10))` that every agent's `analyze`
applies before building its `AgentAnalysis`. -/
def pyClampScore (s : ℤ) : ℤ := max 0 (min s 10)

/-- `AgentAnalysis` dataclass of `ai_agents.py` (the result of one agent). -/
structure AgentAnalysis where
  agent_name : String
  score : ℤ
  confidence : ℚ
  evidence : List String
  recommendations : List String
  insights : List String
  risks : List String
deriving Repr, DecidableEq

/-- The combined result dictionary returned by
`AgentOrchestrator._combine_agent_results` (ai_agents.py:4274-4323).
The `agent_mapping` / `use_specialized_agents` entries are constants
(`{}` / `False` since `use_specialized_agents` is hard-wired to `False`
in `__init__`) and are omitted. -/
structure CombinedResult where
  total_score : ℚ
  agent_scores : List (String × ℤ)
  confidence_scores : List (String × ℚ)
  evidence : List String
  recommendations : List String
  insights : List String
  risks : List String
  agent_count : ℕ
deriving Repr, DecidableEq

/-- `[f"{agent_name}: {x}" for x in xs]` — the traceability tag the combiner
puts in front of every list entry. -/
def tagWith (n : String) (l : List String) : List String :=
  l.map (fun s => n ++ ": " ++ s)

/-- All entries of one list-valued field, gathered over the agent results in
iteration order, each tagged with its agent's name. -/
def allTagged (f : AgentAnalysis → List String) (rs : List (String × AgentAnalysis)) :
    List String :=
  rs.flatMap (fun p => tagWith p.1 (f p.2))

/-- `total_weight`: the sum of the participating agents' confidences. -/
def sumConfidences (rs : List (String × AgentAnalysis)) : ℚ :=
  (rs.map (fun p => p.2.confidence)).sum

/-- `total_score` accumulator: `Σ score_i * confidence_i`. -/
def sumWeightedScores (rs : List (String × AgentAnalysis)) : ℚ :=
  (rs.map (fun p => (p.2.score : ℚ) * p.2.confidence)).sum

/-- `AgentOrchestrator._combine_agent_results` (ai_agents.py:4274-4323).
The Python `agent_results` dict is modelled as an association list in
insertion (= iteration) order. -/
def combineAgentResults (rs : List (String × AgentAnalysis)) : CombinedResult :=
  let total_weight := sumConfidences rs
  let total_score := sumWeightedScores rs
  let final_score := if 0 < total_weight then total_score / total_weight else 0
  { total_score := pyRound1 final_score
    agent_scores := rs.map (fun p => (p.1, p.2.score))
    confidence_scores := rs.map (fun p => (p.1, p.2.confidence))
    evidence := (allTagged (fun r => r.evidence) rs).take 20
    recommendations := (allTagged (fun r => r.recommendations) rs).take 15
    insights := allTagged (fun r => r.insights) rs
    risks := (allTagged (fun r => r.risks) rs).take 10
    agent_count := rs.length }

/-- A bare agent result carrying only a score and a confidence (all text
lists empty); used to instantiate the combiner on concrete inputs. -/
def bareResult (n : String) (s : ℤ) (c : ℚ) : AgentAnalysis :=
  ⟨n, s, c, [], [], [], []⟩

/-- Two fully-confident agents scoring 7 and 8. -/
def exTwoAgents : List (String × AgentAnalysis) :=
  [("code", bareResult "code" 7 1), ("architecture", bareResult "architecture" 8 1)]

/-- `weighted_total` of `AIGrader._map_ai_results_to_grades`
(ai_grader.py:151-175): the plain (confidence-ignoring) average of the
available agent scores, rounded to an integer; `5` only when no agent
scores are present at all. -/
def graderWeightedTotal (scores : List ℤ) : ℤ :=
  if scores.isEmpty then 5
  else pyRound ((scores.sum : ℚ) / (scores.length : ℚ))

/-- C1, counterexample.  With agent results `[(7, 1.0), (8, 1.0)]` the
combiner returns `round(7.5, 1) = 7.5`, which is not the claimed
`round(Σ score·conf / Σ conf) = round(7.5) = 8`. -/
theorem c1_total_score_not_integer_rounded :
    (combineAgentResults exTwoAgents).total_score ≠
      ((pyRound (sumWeightedScores exTwoAgents / sumConfidences exTwoAgents) : ℤ) : ℚ) := by
  norm_num [combineAgentResults, sumWeightedScores, sumConfidences, exTwoAgents,
    bareResult, pyRound1, pyRound]

/-- C1, amended.  `total_score` equals the confidence-weighted mean rounded
to ONE DECIMAL (Python `round(x, 1)`) when `Σ confidence_i > 0`, and `0`
when `Σ confidence_i ≤ 0` (in particular when all confidences are 0 or no
agents ran). -/
theorem c1_total_score_weighted_mean_one_decimal (rs : List (String × AgentAnalysis)) :
    (combineAgentResults rs).total_score =
      if 0 < sumConfidences rs then pyRound1 (sumWeightedScores rs / sumConfidences rs)
      else 0 := by
  show pyRound1 (if 0 < sumConfidences rs then sumWeightedScores rs / sumConfidences rs else 0)
      = _
  split
  · rfl
  · norm_num [pyRound1, pyRound]

/-- A single participating agent scoring 7 with confidence 0. -/
def exZeroConfidence : List (String × AgentAnalysis) :=
  [("code", bareResult "code" 7 0)]

/-- C6, counterexample.  With one participating agent of confidence 0 the
sum of confidences is 0, and the combiner's `total_score` is `0`, not the
claimed default of `5`. -/
theorem c6_zero_confidence_total_is_not_five :
    sumConfidences exZeroConfidence = 0 ∧
      (combineAgentResults exZeroConfidence).total_score = 0 ∧
      (combineAgentResults exZeroConfidence).total_score ≠ 5 := by
  refine ⟨by norm_num [sumConfidences, exZeroConfidence, bareResult], ?_, ?_⟩ <;>
    norm_num [combineAgentResults, sumConfidences, sumWeightedScores, exZeroConfidence,
      bareResult, pyRound1, pyRound]

/-- C6, amended.  When `Σ confidence_i = 0` the combiner's `total_score` is
`0`; the value `5` is the default of the grader's separate, confidence-free
`weighted_total`, and that default applies only when no agent scores are
present at all. -/
theorem c6_zero_confidence_gives_zero_and_grader_defaults_five :
    (∀ rs : List (String × AgentAnalysis),
        sumConfidences rs = 0 → (combineAgentResults rs).total_score = 0) ∧
      graderWeightedTotal [] = 5 := by
  constructor
  · intro rs h
    show pyRound1 (if 0 < sumConfidences rs then sumWeightedScores rs / sumConfidences rs else 0)
        = 0
    rw [h]
    norm_num [pyRound1, pyRound]
  · norm_num [graderWeightedTotal]

/-- C6 witness: the amended theorem applied to the concrete zero-confidence
input above. -/
theorem c6_zero_confidence_witness :
    (combineAgentResults exZeroConfidence).total_score = 0 :=
  c6_zero_confidence_gives_zero_and_grader_defaults_five.1 exZeroConfidence
    (by norm_num [sumConfidences, exZeroConfidence, bareResult])

/-- One entry of the GitHub file tree: a path plus the GitHub object type
(`"blob"` for files, `"tree"` for directories); the agents test
`file_info.get('type') == 'blob'`. -/
structure FileEntry where
  path : String
  type : String
deriving Repr, DecidableEq

/-- The `artifacts` mapping of the evidence context, restricted to the keys
the embedded code reads (`None` models an absent key / empty string, since
the source only ever checks truthiness and substring containment). -/
structure Artifacts where
  test_results : Option String
  lint_results : Option String
  screenshots_or_demo : Option String
deriving Repr, DecidableEq

/-- The evidence context dictionary passed to every agent: file tree,
README text and external artifacts.  The `repository_identity` / `branch` /
`commit` entries are consumed only by the cache (modelled separately
below), never by agents. -/
structure EvidenceContext where
  file_tree : List FileEntry
  readme : String
  artifacts : Artifacts
deriving Repr, DecidableEq

/-- An empty repository: no files, empty README, no artifacts. -/
def emptyContext : EvidenceContext :=
  { file_tree := [], readme := "", artifacts := ⟨none, none, none⟩ }

/-- An agent's `analyze` as the orchestrator sees it: either a normal
result or a raised exception carried as its message string. -/
def AgentFunction : Type := EvidenceContext → Except String AgentAnalysis

/-- The synthetic default result the orchestrator substitutes for an agent
whose `analyze` raised (ai_agents.py:4249-4260 in `AgentOrchestrator.analyze`). -/
def failedAgentResult (agent_name reason : String) : AgentAnalysis :=
  { agent_name := agent_name
    score := 0
    confidence := 0
    evidence := []
    recommendations := []
    insights := []
    risks := ["Agent failed: " ++ reason] }

/-- Run one agent, catching its exception as the synthetic failure result. -/
def runOneAgent (ctx : EvidenceContext) (p : String × AgentFunction) :
    String × AgentAnalysis :=
  match p.2 ctx with
  | .ok r => (p.1, r)
  | .error e => (p.1, failedAgentResult p.1 e)

/-- The per-agent loop of `AgentOrchestrator.analyze` (ai_agents.py:4244-4272)
over the already-selected agents, in their dict iteration order. -/
def runAgents (agents : List (String × AgentFunction)) (ctx : EvidenceContext) :
    List (String × AgentAnalysis) :=
  agents.map (runOneAgent ctx)

/-- `AgentOrchestrator.analyze`: run the selected agents and combine their
results.  (The append to `self.analysis_history` is a log-only side effect
no claim touches and is not modelled.) -/
def orchestratorAnalyze (agents : List (String × AgentFunction)) (ctx : EvidenceContext) :
    CombinedResult :=
  combineAgentResults (runAgents agents ctx)

/-- C2, confirmed.  If among the selected agents exactly the one named `n`
raises (with message `e`) and every sibling returns normally, then the
orchestrator's result list keeps every sibling's own result unchanged in
place, substitutes the synthetic `score 0 / confidence 0 /
risks ["Agent failed: <reason>"]` result for `n`, and the combined verdict
still covers all selected agents. -/
theorem c2_single_failure_is_isolated
    (pre post : List (String × AgentFunction)) (n : String) (f : AgentFunction)
    (e : String) (ctx : EvidenceContext)
    (hf : f ctx = .error e)
    (_hok : ∀ p ∈ pre ++ post, ∃ r, p.2 ctx = Except.ok r) :
    runAgents (pre ++ (n, f) :: post) ctx =
        runAgents pre ctx ++ (n, failedAgentResult n e) :: runAgents post ctx ∧
      (orchestratorAnalyze (pre ++ (n, f) :: post) ctx).agent_count =
        pre.length + post.length + 1 ∧
      (∀ p ∈ pre ++ post, ∀ r, p.2 ctx = Except.ok r →
        (p.1, r) ∈ runAgents (pre ++ (n, f) :: post) ctx) := by
  refine ⟨?_, ?_, ?_⟩
  · simp [runAgents, runOneAgent, hf]
  · simp [orchestratorAnalyze, combineAgentResults, runAgents]
    omega
  · intro p hp r hr
    have : runOneAgent ctx p = (p.1, r) := by simp [runOneAgent, hr]
    have hmem : p ∈ pre ++ (n, f) :: post := by
      rcases List.mem_append.1 hp with h | h
      · exact List.mem_append.2 (Or.inl h)
      · exact List.mem_append.2 (Or.inr (List.mem_cons_of_mem _ h))
    simpa [runAgents, this] using List.mem_map_of_mem (runOneAgent ctx) hmem

/-- A concrete always-succeeding agent function. -/
def okAgent (n : String) (s : ℤ) (c : ℚ) : AgentFunction :=
  fun _ => .ok (bareResult n s c)

/-- A concrete always-raising agent function. -/
def raisingAgent (msg : String) : AgentFunction :=
  fun _ => .error msg

/-- C2 witness: three selected agents of which exactly the middle one
raises; the theorem applied at this input. -/
theorem c2_single_failure_witness :
    runAgents [("code", okAgent "code" 7 1), ("ui_ux", raisingAgent "boom"),
        ("security", okAgent "security" 6 (1/2))] emptyContext =
      runAgents [("code", okAgent "code" 7 1)] emptyContext ++
        ("ui_ux", failedAgentResult "ui_ux" "boom") ::
          runAgents [("security", okAgent "security" 6 (1/2))] emptyContext := by
  have h := c2_single_failure_is_isolated
    [("code", okAgent "code" 7 1)] [("security", okAgent "security" 6 (1/2))]
    "ui_ux" (raisingAgent "boom") "boom" emptyContext rfl
    (by
      intro p hp
      simp only [List.mem_append, List.mem_singleton, List.mem_cons,
        List.not_mem_nil, or_false] at hp
      rcases hp with h | h <;> subst h <;> exact ⟨_, rfl⟩)
  simpa using h.1

/-- Sum of the values of a weights mapping (`sum(weights.values())`);
the mapping is modelled as an association list in insertion order. -/
def weightsSum (w : List (String × ℤ)) : ℤ := (w.map Prod.snd).sum

/-- `JudgeConfig.validate_weights` (judge_config.py:57-67): total must be
exactly 100, then no value may be negative (first offender, in iteration
order, is named in the message). -/
def validateWeights (w : List (String × ℤ)) : Bool × String :=
  if weightsSum w ≠ 100 then
    (false, "Weights must sum to 100%, got " ++ toString (weightsSum w) ++ "%")
  else
    match w.find? (fun p => p.2 < 0) with
    | some p =>
        (false, "Weight for " ++ p.1 ++ " cannot be negative: " ++ toString p.2 ++ "%")
    | none => (true, "Valid configuration")

/-- The judge-configuration state: the in-memory `self.weights` plus the
persisted `judge_config.json` content (`none` = file absent). -/
structure JudgeConfigState where
  weights : List (String × ℤ)
  stored : Option (List (String × ℤ))
deriving Repr, DecidableEq

/-- `JudgeConfig.save_config` (judge_config.py:41-54).  The body first
builds the config dict, whose `"last_updated"` entry evaluates
`pd.Timestamp.now()`; `judge_config.py` never imports pandas, so that
expression raises `NameError` before anything is written, the surrounding
`try/except` catches it, and the method returns `False` leaving the
persisted file untouched.  The `weights` argument is therefore never
stored. -/
def saveConfig (st : JudgeConfigState) (_w : List (String × ℤ)) :
    Bool × JudgeConfigState :=
  (false, st)

/-- `JudgeConfig.set_weights` (judge_config.py:73-80): validate; on success
replace the in-memory weights, attempt to persist, and report success
regardless of whether persisting worked; on failure leave everything
unchanged and return the validation message. -/
def setWeights (st : JudgeConfigState) (w : List (String × ℤ)) :
    (Bool × String) × JudgeConfigState :=
  let v := validateWeights w
  if v.1 then
    let st1 : JudgeConfigState := { weights := w, stored := st.stored }
    ((true, "Configuration saved successfully"), (saveConfig st1 w).2)
  else ((false, v.2), st)

/-- `self.default_weights` of `JudgeConfig.__init__` (judge_config.py:16-27). -/
def defaultWeights : List (String × ℤ) :=
  [("code_analysis", 20), ("architecture", 15), ("ui_ux", 15), ("security", 10),
   ("innovation", 15), ("functionality", 15), ("technical", 10),
   ("ui_ux_polish", 0), ("learning", 0)]

/-- A judge-config state as after construction with no config file. -/
def freshJudgeConfig : JudgeConfigState := { weights := defaultWeights, stored := none }

/-- A valid replacement mapping (sums to 100, all non-negative). -/
def validNewWeights : List (String × ℤ) := [("code_analysis", 60), ("security", 40)]

/-- C4, code bug.  Evaluating `set_weights` at a valid mapping (sum 100,
non-negative): the call reports `"Configuration saved successfully"` and
replaces the in-memory weights, but the persisted configuration is NOT
updated, because `save_config` dies on the unimported `pd` and returns
`False` — contradicting both the claim and the method's own success
message.  The invalid cases (sums 99 and 101, a negative value) behave as
claimed: failure with a message naming the violation, state fully
unchanged. -/
theorem c4_set_weights_reports_success_but_never_persists :
    (setWeights freshJudgeConfig validNewWeights).1 =
        (true, "Configuration saved successfully") ∧
      (setWeights freshJudgeConfig validNewWeights).2.weights = validNewWeights ∧
      (setWeights freshJudgeConfig validNewWeights).2.stored = none ∧
      setWeights freshJudgeConfig [("code_analysis", 60), ("security", 39)] =
        ((false, "Weights must sum to 100%, got 99%"), freshJudgeConfig) ∧
      setWeights freshJudgeConfig [("code_analysis", 60), ("security", 41)] =
        ((false, "Weights must sum to 100%, got 101%"), freshJudgeConfig) ∧
      setWeights freshJudgeConfig [("code_analysis", 110), ("security", -10)] =
        ((false, "Weight for security cannot be negative: -10%"), freshJudgeConfig) := by
  refine ⟨?_, ?_, ?_, ?_, ?_, ?_⟩ <;> decide

/-- Python `':'.join(l)`. -/
def joinColon : List String → String
  | [] => ""
  | [s] => s
  | s :: t :: rest => s ++ ":" ++ joinColon (t :: rest)

/-- The cache key of `AnalysisCache.get_analysis` / `set_analysis`
(core.py:235-243): `f"{repo_url}:{branch}:{':'.join(sorted(selected_agents))}"`. -/
def analysisCacheKey (repo branch : String) (agents : List String) : String :=
  repo ++ ":" ++ branch ++ ":" ++ joinColon agents.mergeSort

/-- The LRU store of `AnalysisCache` (core.py:161-208): the `OrderedDict`
as an association list with unique keys, head = least recently used,
tail = most recently used. -/
abbrev Cache (V : Type) : Type := List (String × V)

/-- `AnalysisCache.get` (core.py:172-184): on a hit, pop the entry and
re-append it (promotion to most recently used) and return its value; on a
miss return `None` and leave the store unchanged.  (The hit/miss counters
are statistics no claim touches.) -/
def cacheGet {V : Type} (c : Cache V) (k : String) : Option V × Cache V :=
  match c.find? (fun p => p.1 == k) with
  | some p => (some p.2, c.eraseP (fun q => q.1 == k) ++ [(k, p.2)])
  | none => (none, c)

/-- `AnalysisCache.set` (core.py:186-198): replace an existing key in
last position; otherwise, if the store is at capacity, evict the single
oldest entry (the head) before appending.  (For `max_size = 0` on an empty
store the Python raises `StopIteration` on `next(iter(...))`; no claim
concerns that corner and the model appends.) -/
def cacheSet {V : Type} (maxSize : ℕ) (c : Cache V) (k : String) (v : V) : Cache V :=
  if (c.find? (fun p => p.1 == k)).isSome then
    c.eraseP (fun q => q.1 == k) ++ [(k, v)]
  else if maxSize ≤ c.length then
    c.tail ++ [(k, v)]
  else c ++ [(k, v)]

/-- `AnalysisCache.get_analysis` (core.py:235-238). -/
def getAnalysis {V : Type} (c : Cache V) (repo branch : String) (agents : List String) :
    Option V × Cache V :=
  cacheGet c (analysisCacheKey repo branch agents)

/-- `AnalysisCache.set_analysis` (core.py:240-243). -/
def setAnalysis {V : Type} (maxSize : ℕ) (c : Cache V) (repo branch : String)
    (agents : List String) (v : V) : Cache V :=
  cacheSet maxSize c (analysisCacheKey repo branch agents) v

theorem data_append_colon (a j : String) :
    (a ++ ":" ++ j).data = a.data ++ ':' :: j.data := by
  have hc : (":" : String).data = [':'] := rfl
  simp [String.data_append, hc]

theorem string_append_left_cancel {s a b : String} (h : s ++ a = s ++ b) : a = b := by
  have hd : (s ++ a).data = (s ++ b).data := congrArg String.data h
  rw [String.data_append, String.data_append] at hd
  have : a.data = b.data := List.append_cancel_left hd
  exact String.toList_inj.1 this

theorem append_colon_inj (a : List Char) :
    ':' ∉ a → ∀ (b : List Char), ':' ∉ b → ∀ (u v : List Char),
      a ++ ':' :: u = b ++ ':' :: v → a = b ∧ u = v := by
  induction a with
  | nil =>
    intro _ b hb u v h
    cases b with
    | nil => simpa using h
    | cons d db =>
      simp only [List.nil_append, List.cons_append, List.cons.injEq] at h
      obtain ⟨h1, -⟩ := h
      subst h1
      exact absurd (List.mem_cons_self _ _) hb
  | cons c ca ih =>
    intro ha b hb u v h
    cases b with
    | nil =>
      simp only [List.cons_append, List.nil_append, List.cons.injEq] at h
      obtain ⟨h1, -⟩ := h
      subst h1
      exact absurd (List.mem_cons_self _ _) ha
    | cons d db =>
      simp only [List.cons_append, List.cons.injEq] at h
      obtain ⟨hcd, hrest⟩ := h
      have hr := ih (fun hm => ha (List.mem_cons_of_mem _ hm)) db
        (fun hm => hb (List.mem_cons_of_mem _ hm)) u v hrest
      exact ⟨by rw [hcd, hr.1], hr.2⟩

/-- `':'.join` is injective on lists of non-empty, colon-free strings. -/
theorem joinColon_inj (l1 : List String) :
    (∀ s ∈ l1, s ≠ "" ∧ ':' ∉ s.data) → ∀ (l2 : List String),
      (∀ s ∈ l2, s ≠ "" ∧ ':' ∉ s.data) → joinColon l1 = joinColon l2 → l1 = l2 := by
  induction l1 with
  | nil =>
    intro _ l2 h2 hj
    match l2, h2, hj with
    | [], _, _ => rfl
    | [s], h2, hj =>
      exact absurd hj.symm (h2 s (List.mem_singleton_self s)).1
    | s :: t :: r, h2, hj =>
      exfalso
      have hd : ([] : List Char) = s.data ++ ':' :: (joinColon (t :: r)).data := by
        have := congrArg String.data hj
        rwa [show joinColon (s :: t :: r) = s ++ ":" ++ joinColon (t :: r) from rfl,
          data_append_colon] at this
      exact absurd hd.symm (List.append_ne_nil_of_right_ne_nil _ (by simp))
  | cons a l1 ih =>
    intro h1 l2 h2 hj
    match l1, h1, hj with
    | [], h1, hj =>
      match l2, h2, hj with
      | [], h2, hj => exact absurd hj (h1 a (List.mem_singleton_self a)).1
      | [s], h2, hj => rw [show joinColon [a] = a from rfl, show joinColon [s] = s from rfl] at hj; rw [hj]
      | s :: t :: r, h2, hj =>
        exfalso
        have hd : a.data = s.data ++ ':' :: (joinColon (t :: r)).data := by
          have := congrArg String.data hj
          rwa [show joinColon (s :: t :: r) = s ++ ":" ++ joinColon (t :: r) from rfl,
            data_append_colon] at this
        have : ':' ∈ a.data := by
          rw [hd]
          exact List.mem_append.2 (Or.inr (List.mem_cons_self _ _))
        exact absurd this (h1 a (List.mem_singleton_self a)).2
    | b :: l1', h1, hj =>
      match l2, h2, hj with
      | [], h2, hj =>
        exfalso
        have hd : (joinColon (a :: b :: l1')).data = [] := congrArg String.data hj
        rw [show joinColon (a :: b :: l1') = a ++ ":" ++ joinColon (b :: l1') from rfl,
          data_append_colon] at hd
        exact absurd hd (List.append_ne_nil_of_right_ne_nil _ (by simp))
      | [s], h2, hj =>
        exfalso
        have hd : s.data = a.data ++ ':' :: (joinColon (b :: l1')).data := by
          have := congrArg String.data hj.symm
          rwa [show joinColon (a :: b :: l1') = a ++ ":" ++ joinColon (b :: l1') from rfl,
            data_append_colon] at this
        have : ':' ∈ s.data := by
          rw [hd]
          exact List.mem_append.2 (Or.inr (List.mem_cons_self _ _))
        exact absurd this (h2 s (List.mem_singleton_self s)).2
      | s :: t :: r, h2, hj =>
        have hd : a.data ++ ':' :: (joinColon (b :: l1')).data
            = s.data ++ ':' :: (joinColon (t :: r)).data := by
          have := congrArg String.data hj
          rwa [show joinColon (a :: b :: l1') = a ++ ":" ++ joinColon (b :: l1') from rfl,
            show joinColon (s :: t :: r) = s ++ ":" ++ joinColon (t :: r) from rfl,
            data_append_colon, data_append_colon] at this
        have hsplit := append_colon_inj a.data (h1 a (by simp)).2 s.data
          (h2 s (by simp)).2 _ _ hd
        have ha : a = s := String.toList_inj.1 hsplit.1
        have hjoin : joinColon (b :: l1') = joinColon (t :: r) :=
          String.toList_inj.1 hsplit.2
        have htail : b :: l1' = t :: r :=
          ih (fun x hx => h1 x (List.mem_cons_of_mem _ hx)) (t :: r)
            (fun x hx => h2 x (List.mem_cons_of_mem _ hx)) hjoin
        rw [ha, htail]

theorem find?_middle {V : Type} (pre post : List (String × V)) (k : String) (v : V)
    (h : ∀ p ∈ pre, p.1 ≠ k) :
    (pre ++ (k, v) :: post).find? (fun p => p.1 == k) = some (k, v) := by
  induction pre with
  | nil => simp
  | cons a t ih =>
    have ha : (a.1 == k) = false := by
      simpa using h a (List.mem_cons_self _ _)
    simp only [List.cons_append, List.find?_cons, ha]
    exact ih (fun p hp => h p (List.mem_cons_of_mem _ hp))

theorem eraseP_middle {V : Type} (pre post : List (String × V)) (k : String) (v : V)
    (h : ∀ p ∈ pre, p.1 ≠ k) :
    (pre ++ (k, v) :: post).eraseP (fun q => q.1 == k) = pre ++ post := by
  induction pre with
  | nil => simp
  | cons a t ih =>
    have ha : (a.1 == k) = false := by
      simpa using h a (List.mem_cons_self _ _)
    simp only [List.cons_append, List.eraseP_cons, ha, cond_false]
    rw [ih (fun p hp => h p (List.mem_cons_of_mem _ hp))]

/-- C9, confirmed.  (i) The analysis-cache key is invariant under the order
in which the selected agent ids are supplied; (ii) for non-empty, colon-free
agent ids (as the real ids `"1"`–`"9"` are), equal keys force equal agent
subsets, so a different subset always misses; (iii) `get` on a hit returns
the stored value and promotes the entry to most-recently-used, leaving all
other entries in order; (iv) `set` on a full cache with a fresh key evicts
exactly the single least-recently-used entry (the head) before appending. -/
theorem c9_cache_key_determinism_and_lru :
    (∀ (repo branch : String) (a1 a2 : List String), a1.Perm a2 →
        analysisCacheKey repo branch a1 = analysisCacheKey repo branch a2) ∧
      (∀ (repo branch : String) (a1 a2 : List String),
        (∀ s ∈ a1, s ≠ "" ∧ ':' ∉ s.data) → (∀ s ∈ a2, s ≠ "" ∧ ':' ∉ s.data) →
        analysisCacheKey repo branch a1 = analysisCacheKey repo branch a2 → a1.Perm a2) ∧
      (∀ (V : Type) (pre post : List (String × V)) (k : String) (v : V),
        (∀ p ∈ pre, p.1 ≠ k) →
        cacheGet (pre ++ (k, v) :: post) k = (some v, (pre ++ post) ++ [(k, v)])) ∧
      (∀ (V : Type) (maxSize : ℕ) (kv : String × V) (rest : List (String × V))
          (k : String) (v : V),
        (kv :: rest).length = maxSize → (∀ p ∈ kv :: rest, p.1 ≠ k) →
        cacheSet maxSize (kv :: rest) k v = rest ++ [(k, v)]) := by
  refine ⟨?_, ?_, ?_, ?_⟩
  · intro repo branch a1 a2 hperm
    have hsorted : a1.mergeSort = a2.mergeSort :=
      List.eq_of_perm_of_sorted
        ((a1.mergeSort_perm _).trans (hperm.trans (a2.mergeSort_perm _).symm))
        (List.sorted_mergeSort' a1) (List.sorted_mergeSort' a2)
    unfold analysisCacheKey
    rw [hsorted]
  · intro repo branch a1 a2 h1 h2 hkey
    have hjoin : joinColon a1.mergeSort = joinColon a2.mergeSort :=
      string_append_left_cancel hkey
    have hs1 : ∀ s ∈ a1.mergeSort, s ≠ "" ∧ ':' ∉ s.data := fun s hs =>
      h1 s ((a1.mergeSort_perm _).mem_iff.1 hs)
    have hs2 : ∀ s ∈ a2.mergeSort, s ≠ "" ∧ ':' ∉ s.data := fun s hs =>
      h2 s ((a2.mergeSort_perm _).mem_iff.1 hs)
    have hsort : a1.mergeSort = a2.mergeSort :=
      joinColon_inj _ hs1 _ hs2 hjoin
    exact (a1.mergeSort_perm _).symm.trans (hsort ▸ a2.mergeSort_perm _)
  · intro V pre post k v hfresh
    unfold cacheGet
    rw [find?_middle pre post k v hfresh, eraseP_middle pre post k v hfresh]
  · intro V maxSize kv rest k v hlen hfresh
    unfold cacheSet
    have hnone : ((kv :: rest).find? (fun p => p.1 == k)) = none :=
      List.find?_eq_none.2 (fun p hp => by simpa using hfresh p hp)
    rw [hnone]
    simp [← hlen]

/-- C9 witness: the four conjuncts applied at concrete inputs — the key of
agent ids supplied as `["3", "1"]` matches that of `["1", "3"]` and forces
the subsets to be permutations of each other; a `get` hit on `"k"` promotes
it past `("b", 2)`; a `set` on a full 2-entry cache evicts exactly the
oldest entry `("old", 1)`. -/
theorem c9_cache_witness :
    analysisCacheKey "https://github.com/o/r" "main" ["3", "1"] =
        analysisCacheKey "https://github.com/o/r" "main" ["1", "3"] ∧
      (["3", "1"] : List String).Perm ["1", "3"] ∧
      cacheGet ([("a", 1), ("k", 7), ("b", 2)] : Cache ℕ) "k" =
        (some 7, [("a", 1), ("b", 2), ("k", 7)]) ∧
      cacheSet 2 ([("old", 1), ("x", 2)] : Cache ℕ) "new" 3 = [("x", 2), ("new", 3)] := by
  have hkey := c9_cache_key_determinism_and_lru.1 "https://github.com/o/r" "main"
    ["3", "1"] ["1", "3"] (by decide)
  refine ⟨hkey, ?_, ?_, ?_⟩
  · exact c9_cache_key_determinism_and_lru.2.1 "https://github.com/o/r" "main"
      ["3", "1"] ["1", "3"] (by decide) (by decide) hkey
  · simpa using c9_cache_key_determinism_and_lru.2.2.1 ℕ [("a", 1)] [("b", 2)] "k" 7
      (by decide)
  · simpa using c9_cache_key_determinism_and_lru.2.2.2 ℕ 2 ("old", 1) [("x", 2)] "new" 3
      (by decide) (by decide)

/-- Is `p` a prefix of `l`? (structural helper for substring tests). -/
def listIsPre : List Char → List Char → Bool
  | [], _ => true
  | _ :: _, [] => false
  | p :: ps, c :: cs => p == c && listIsPre ps cs

/-- Does `l` contain `pat` as a contiguous subsequence? -/
def listContainsSeq : List Char → List Char → Bool
  | [], pat => pat.isEmpty
  | c :: rest, pat => listIsPre pat (c :: rest) || listContainsSeq rest pat

/-- Python `pat in s` (substring containment). -/
def strContains (s pat : String) : Bool := listContainsSeq s.data pat.data

/-- Python `s.endswith(suf)`. -/
def strEndsWith (s suf : String) : Bool := listIsPre suf.data.reverse s.data.reverse

/-- Python `s.lower()` on the ASCII range (every keyword and list entry the
embedded code compares after lowering is ASCII; non-ASCII characters such
as the emoji in recommendation texts are untouched by both). -/
def pyToLower (s : String) : String := ⟨s.data.map Char.toLower⟩

/-- The feature dictionary produced by `LearningAgent._extract_features`
(ai_agents.py:1861-1935). -/
structure LearnFeatures where
  file_count : ℕ
  code_file_count : ℕ
  test_file_count : ℕ
  doc_file_count : ℕ
  config_file_count : ℕ
  has_readme : Bool
  has_dockerfile : Bool
  has_ci_cd : Bool
  has_tests : Bool
  has_docs : Bool
  technology_stack : List String
  architecture_patterns : List String
  security_files : ℕ
  ui_files : ℕ
  complexity_score : ℚ
deriving Repr, DecidableEq

/-- `LearningAgent._detect_technology_stack` (ai_agents.py:1938-1987).
The trailing `list(set(stack))` deduplicates with an order CPython derives
from string hashes; only the length and membership of the result are ever
consumed numerically, so the model fixes the canonical first-occurrence
order (`eraseDups`), which has the same length and membership. -/
def detectTechnologyStack (file_tree : List FileEntry) (readme : String) : List String :=
  let fileStack := file_tree.filterMap (fun fi =>
    let p := pyToLower fi.path
    if strEndsWith p ".py" then some "Python"
    else if strEndsWith p ".js" || strEndsWith p ".jsx" then some "JavaScript"
    else if strEndsWith p ".ts" || strEndsWith p ".tsx" then some "TypeScript"
    else if strEndsWith p ".java" then some "Java"
    else if strEndsWith p ".go" then some "Go"
    else if strEndsWith p ".rs" then some "Rust"
    else if strEndsWith p ".cpp" || strEndsWith p ".c" then some "C++"
    else if strEndsWith p ".php" then some "PHP"
    else if strEndsWith p ".rb" then some "Ruby"
    else if strEndsWith p ".swift" then some "Swift"
    else if strEndsWith p ".kt" then some "Kotlin"
    else none)
  let readmeStack :=
    if readme ≠ "" then
      let r := pyToLower readme
      (if strContains r "react" then ["React"] else [])
      ++ (if strContains r "vue" then ["Vue"] else [])
      ++ (if strContains r "angular" then ["Angular"] else [])
      ++ (if strContains r "django" then ["Django"] else [])
      ++ (if strContains r "flask" then ["Flask"] else [])
      ++ (if strContains r "express" then ["Express"] else [])
      ++ (if strContains r "spring" then ["Spring"] else [])
      ++ (if strContains r "rails" then ["Rails"] else [])
    else []
  (fileStack ++ readmeStack).eraseDups

/-- `LearningAgent._detect_architecture_patterns` (ai_agents.py:1989-2009);
note the loops run over ALL tree entries, without the blob filter. -/
def detectArchitecturePatterns (file_tree : List FileEntry) : List String :=
  (if file_tree.any (fun f => strContains (pyToLower f.path) "controller") then ["MVC"] else [])
  ++ (if file_tree.any (fun f => strContains (pyToLower f.path) "service")
      then ["Microservices"] else [])
  ++ (if file_tree.any (fun f => strContains (pyToLower f.path) "component")
      then ["Component-based"] else [])
  ++ (if file_tree.any (fun f =>
        strContains (pyToLower f.path) "presentation" || strContains (pyToLower f.path) "business"
          || strContains (pyToLower f.path) "data")
      then ["Layered"] else [])

/-- `LearningAgent._calculate_complexity_score` (ai_agents.py:2011-2032). -/
def complexityScore (f : LearnFeatures) : ℚ :=
  let c1 := min ((f.file_count : ℚ) / 50) 1 * (3/10)
  let c2 := if 0 < f.file_count
    then ((f.code_file_count : ℚ) / (f.file_count : ℚ)) * (3/10) else 0
  let c3 := min ((f.technology_stack.length : ℚ) / 5) 1 * (2/10)
  let c4 := min ((f.architecture_patterns.length : ℚ) / 3) 1 * (2/10)
  min (c1 + c2 + c3 + c4) 1

/-- One iteration of the file-counting loop of
`LearningAgent._extract_features` (ai_agents.py:1884-1922). -/
def extractFeaturesStep (acc : LearnFeatures) (fi : FileEntry) : LearnFeatures :=
  if fi.type == "blob" then
    let p := pyToLower fi.path
    let isCode := [".py", ".js", ".ts", ".java", ".go", ".rs", ".cpp", ".c"].any
      (fun e => strEndsWith p e)
    let isTest := strContains p "test"
    let isDoc := strEndsWith p ".md" || strEndsWith p ".rst"
    let isConfig := [".env", "config", "settings", "package.json", "requirements.txt"].any
      (fun e => strContains p e)
    let isSecurity := ["auth", "security", "jwt", "middleware"].any (fun e => strContains p e)
    let isUi := [".html", ".jsx", ".tsx", ".vue", ".css", ".scss"].any
      (fun e => strEndsWith p e)
    { acc with
      file_count := acc.file_count + 1
      code_file_count := acc.code_file_count + (if isCode then 1 else 0)
      test_file_count := acc.test_file_count + (if isTest then 1 else 0)
      has_tests := acc.has_tests || isTest
      doc_file_count := acc.doc_file_count + (if isDoc then 1 else 0)
      has_docs := acc.has_docs || isDoc
      config_file_count := acc.config_file_count + (if isConfig then 1 else 0)
      has_dockerfile := acc.has_dockerfile || strContains p "dockerfile"
      has_ci_cd := acc.has_ci_cd || strContains p ".github"
      security_files := acc.security_files + (if isSecurity then 1 else 0)
      ui_files := acc.ui_files + (if isUi then 1 else 0) }
  else acc

/-- `LearningAgent._extract_features` (ai_agents.py:1861-1935): count files
per category, then fill README flag, technology stack, architecture
patterns and the composite complexity score. -/
def extractFeatures (ctx : EvidenceContext) : LearnFeatures :=
  let base : LearnFeatures :=
    { file_count := 0, code_file_count := 0, test_file_count := 0, doc_file_count := 0
      config_file_count := 0, has_readme := false, has_dockerfile := false
      has_ci_cd := false, has_tests := false, has_docs := false
      technology_stack := [], architecture_patterns := []
      security_files := 0, ui_files := 0, complexity_score := 0 }
  let counted := ctx.file_tree.foldl extractFeaturesStep base
  let withMeta := { counted with
    has_readme := ctx.readme ≠ ""
    technology_stack := detectTechnologyStack ctx.file_tree ctx.readme
    architecture_patterns := detectArchitecturePatterns ctx.file_tree }
  { withMeta with complexity_score := complexityScore withMeta }

/-- The shapes of keys `LearningAgent._update_pattern_weights` ever inserts
into the `pattern_weights` defaultdict (ai_agents.py:2218-2252):
`f"tech_{t}"`, `f"arch_{a}"`, `'has_tests'`, `'has_docs'`, `'no_tests'`,
`'no_docs'`. -/
inductive PatternKey where
  | techKey (t : String)
  | archKey (a : String)
  | hasTestsKey
  | hasDocsKey
  | noTestsKey
  | noDocsKey
deriving Repr, DecidableEq

/-- `pattern in str(features)` of `LearningAgent._predict_score`
(ai_agents.py:2078-2080): the pattern is matched as a SUBSTRING of the
`repr` of the whole feature dict.  The dict repr always contains the key
names `'has_tests'` and `'has_docs'`, so those two patterns match every
feature dict regardless of the stored boolean; the strings `tech_<t>`,
`arch_<a>`, `no_tests` and `no_docs` never occur in the repr (the dict
keys are `technology_stack`, `architecture_patterns`, `has_tests`,
`has_docs`, and the value lists hold bare technology/pattern names), so
those patterns never match. -/
def patternMatches (k : PatternKey) (_f : LearnFeatures) : Bool :=
  match k with
  | .hasTestsKey => true
  | .hasDocsKey => true
  | _ => false

/-- One record of `self.learning_data` (`LearningAgent._store_analysis`,
ai_agents.py:2199-2216).  The wall-clock `timestamp` and the echoed
`context_keys` / per-field copies are never read back by prediction,
confidence or weight updates and are omitted. -/
structure LearnRecord where
  features : LearnFeatures
  score : ℤ
  confidence : ℚ
deriving Repr, DecidableEq

/-- The mutable state of the Learning agent: `self.learning_data` plus
`self.pattern_weights` (insertion-ordered association list, as a Python
defaultdict is).  `self.technology_patterns` is written by
`_update_learning_model` but read only by `get_learning_stats`, which no
claim touches, and is omitted. -/
structure LearnState where
  learning_data : List LearnRecord
  pattern_weights : List (PatternKey × ℚ)
deriving Repr, DecidableEq

/-- The state of a freshly initialized Learning agent when no persisted
`learning_data.json` exists (`LearningAgent.__init__`,
ai_agents.py:1793-1805). -/
def initialLearnState : LearnState := { learning_data := [], pattern_weights := [] }

/-- `LearningAgent._predict_score` (ai_agents.py:2034-2084): the default 5
while no learning data exists; otherwise base 5 plus fixed bonuses plus the
matching learned weights, rounded and clamped. -/
def predictScore (st : LearnState) (f : LearnFeatures) : ℤ :=
  if st.learning_data.isEmpty then 5
  else
    let score : ℚ := 5
      + (if 10 < f.file_count then 1 else 0)
      + (if 50 < f.file_count then 1 else 0)
      + (if f.has_tests then 3/2 else 0)
      + (if f.has_docs then 1 else 0)
      + (if 0 < f.config_file_count then 1/2 else 0)
      + (if f.has_dockerfile then 1 else 0)
      + (if f.has_ci_cd then 1 else 0)
      + (if 0 < f.security_files then 1 else 0)
      + (if 1 < f.technology_stack.length then 1/2 else 0)
      + (if f.architecture_patterns.isEmpty then 0 else 1)
      + ((st.pattern_weights.filter (fun p => patternMatches p.1 f)).map Prod.snd).sum
    max 0 (min (pyRound score) 10)

/-- `LearningAgent._calculate_ml_confidence` (ai_agents.py:2170-2197):
0.5 while no learning data exists, otherwise a weighted blend of data-size,
feature-completeness and pattern-count confidences clamped into [0.1, 1]. -/
def mlConfidence (st : LearnState) (f : LearnFeatures) : ℚ :=
  if st.learning_data.isEmpty then 1/2
  else
    let dataConfidence := min ((st.learning_data.length : ℚ) / 100) 1
    let featureConfidence : ℚ :=
      (if 0 < f.file_count then 2/10 else 0)
      + (if f.has_readme then 2/10 else 0)
      + (if f.technology_stack.isEmpty then 0 else 2/10)
      + (if f.architecture_patterns.isEmpty then 0 else 2/10)
      + (if f.has_tests then 2/10 else 0)
    let patternConfidence := min ((st.pattern_weights.length : ℚ) / 50) 1
    let total := dataConfidence * (4/10) + featureConfidence * (4/10)
      + patternConfidence * (2/10)
    min (max total (1/10)) 1

/-- `self.pattern_weights[k] += d` on a defaultdict(float): update in
place if the key exists, else append it with initial value 0 + d. -/
def bumpWeight (w : List (PatternKey × ℚ)) (k : PatternKey) (d : ℚ) :
    List (PatternKey × ℚ) :=
  if (w.find? (fun p => p.1 == k)).isSome then
    w.map (fun p => if p.1 == k then (p.1, p.2 + d) else p)
  else w ++ [(k, d)]

/-- `LearningAgent._update_pattern_weights` (ai_agents.py:2218-2252):
reward the matching patterns by +0.1 when the predicted score is ≥ 7,
penalize the missing ones by −0.1 when it is ≤ 3, then clamp every weight
into [−1, 1]. -/
def updatePatternWeights (w : List (PatternKey × ℚ)) (f : LearnFeatures) (score : ℤ) :
    List (PatternKey × ℚ) :=
  let w1 :=
    if 7 ≤ score then
      let wt := f.technology_stack.foldl (fun acc t => bumpWeight acc (.techKey t) (1/10)) w
      let wa := f.architecture_patterns.foldl
        (fun acc a => bumpWeight acc (.archKey a) (1/10)) wt
      let wTests := if f.has_tests then bumpWeight wa .hasTestsKey (1/10) else wa
      if f.has_docs then bumpWeight wTests .hasDocsKey (1/10) else wTests
    else if score ≤ 3 then
      let wn := if !f.has_tests then bumpWeight w .noTestsKey (-(1/10)) else w
      if !f.has_docs then bumpWeight wn .noDocsKey (-(1/10)) else wn
    else w
  w1.map (fun p => (p.1, max (-1) (min 1 p.2)))

/-- `LearningAgent._store_analysis` (ai_agents.py:2199-2216): append the
record, keep only the last 1000, update the pattern weights.  (The
every-10th-call `_save_learning_data` file write has no effect on the
in-memory state and is not modelled.) -/
def storeAnalysis (st : LearnState) (f : LearnFeatures) (score : ℤ) (confidence : ℚ) :
    LearnState :=
  let data := st.learning_data ++ [⟨f, score, confidence⟩]
  let data := if 1000 < data.length then data.drop (data.length - 1000) else data
  { learning_data := data
    pattern_weights := updatePatternWeights st.pattern_weights f score }

/-- `LearningAgent._generate_pattern_insights` (ai_agents.py:2086-2115). -/
def patternInsights (f : LearnFeatures) : List String :=
  (if f.technology_stack.isEmpty then []
   else ["Uses modern technology stack: " ++ String.intercalate ", " f.technology_stack])
  ++ (if f.architecture_patterns.isEmpty then []
      else ["Implements " ++ String.intercalate ", " f.architecture_patterns
        ++ " architecture pattern"])
  ++ (if 7/10 < f.complexity_score then ["High complexity project with multiple components"]
      else if f.complexity_score < 3/10 then ["Simple project structure"] else [])
  ++ (if 20 < f.file_count then ["Well-organized project with multiple files"] else [])
  ++ (if f.has_tests then ["Good testing practices evident"] else [])

/-- `LearningAgent._generate_ml_recommendations` (ai_agents.py:2117-2144). -/
def mlRecommendations (f : LearnFeatures) : List String :=
  (if !f.has_tests && 5 < f.code_file_count
   then ["Add comprehensive test suite for better code quality"] else [])
  ++ (if !f.has_docs && 10 < f.file_count
      then ["Add documentation to improve project maintainability"] else [])
  ++ (if !f.has_dockerfile && 15 < f.file_count
      then ["Consider adding Docker for easier deployment"] else [])
  ++ (if !f.has_ci_cd && 20 < f.file_count
      then ["Add CI/CD pipeline for automated testing and deployment"] else [])
  ++ (if f.security_files == 0 && 10 < f.code_file_count
      then ["Implement security measures and authentication"] else [])
  ++ (if f.architecture_patterns.isEmpty && 15 < f.file_count
      then ["Consider implementing clear architectural patterns"] else [])

/-- `LearningAgent._identify_risk_patterns` (ai_agents.py:2146-2168). -/
def riskPatterns (f : LearnFeatures) : List String :=
  (if 7/10 < f.complexity_score && !f.has_tests
   then ["High complexity project without adequate testing"] else [])
  ++ (if 20 < f.code_file_count && !f.has_docs
      then ["Large codebase without proper documentation"] else [])
  ++ (if 10 < f.file_count && f.config_file_count == 0
      then ["No configuration management detected"] else [])
  ++ (if 15 < f.code_file_count && f.security_files == 0
      then ["No security implementation detected"] else [])

/-- `'Yes' if b else 'No'`. -/
def yesNo (b : Bool) : String := if b then "Yes" else "No"

/-- `LearningAgent._generate_learning_scoring_explanation`
(ai_agents.py:2321-2382); `score` is the already-normalized integer score,
printed as `f"{score:.1f}"`.  The `pattern_insights` parameter of the
Python method is never used by its body. -/
def learningExplanation (score : ℤ) (f : LearnFeatures) : String :=
  let assessment :=
    if 8 ≤ score then "Excellent project based on learned patterns"
    else if 6 ≤ score then "Good project with some learned patterns"
    else if 4 ≤ score then "Fair project with limited learned patterns"
    else "Poor project based on learned patterns"
  let e0 := "Learning Analysis: " ++ toString score ++ ".0/10 - " ++ assessment ++ "\n\n"
  let e1 := if 8 ≤ score then
      "🎯 Why this score is high:\n"
      ++ (if f.has_tests then "  • Testing: Tests found - Good development practices\n" else "")
      ++ (if f.has_docs
          then "  • Documentation: Documentation found - Good project structure\n" else "")
      ++ (if f.has_ci_cd
          then "  • CI/CD: Automated workflows found - Professional development\n" else "")
      ++ (if 3 ≤ f.technology_stack.length
          then "  • Tech stack: " ++ toString f.technology_stack.length
            ++ " technologies - Diverse technology usage\n"
          else "")
    else ""
  let e2 := if score < 8 then
      "⚠️ Why some points were deducted:\n"
      ++ (if !f.has_tests then "  • Testing: No tests found - Missing quality assurance\n"
          else "")
      ++ (if !f.has_docs
          then "  • Documentation: No documentation found - Poor project structure\n" else "")
      ++ (if !f.has_ci_cd
          then "  • CI/CD: No automated workflows - Missing professional practices\n" else "")
      ++ (if f.technology_stack.length < 2
          then "  • Tech stack: Limited technology diversity\n" else "")
    else ""
  let e3 := "\n📊 Key Reasons for the Score:\n"
    ++ "  • File count: " ++ toString f.file_count ++ " files - Project size\n"
    ++ "  • Code files: " ++ toString f.code_file_count ++ " files - Codebase size\n"
    ++ "  • Testing: " ++ yesNo f.has_tests ++ " - Quality assurance\n"
    ++ "  • Documentation: " ++ yesNo f.has_docs ++ " - Project structure\n"
    ++ "  • CI/CD: " ++ yesNo f.has_ci_cd ++ " - Professional practices\n"
    ++ "  • Tech stack: " ++ toString f.technology_stack.length
      ++ " technologies - Technology diversity\n"
  let e4 := "\n💡 In Simple Terms:\n"
    ++ (if 8 ≤ score then
        "This project shows excellent patterns based on what we've learned from previous analyses. It has good structure, testing, documentation, and uses diverse technologies."
      else if 6 ≤ score then
        "This project shows good patterns based on our learning. It has some good practices but could be improved in a few areas."
      else if 4 ≤ score then
        "This project shows basic patterns but is missing some important practices we've learned are valuable."
      else
        "This project doesn't follow the good patterns we've learned from previous analyses. It needs significant improvement.")
  e0 ++ e1 ++ e2 ++ e3 ++ e4

/-- `LearningAgent.analyze` (ai_agents.py:1807-1860) as a state
transformer: compute features, predict from the PRE-call state, derive
insights/recommendations/risks and the confidence (also from the pre-call
state), then store the analysis (mutating the state for subsequent calls),
and assemble the result.  The evidence strings report the
post-store counters, as the Python appends them after `_store_analysis`. -/
def learningStep (st : LearnState) (ctx : EvidenceContext) : AgentAnalysis × LearnState :=
  let features := extractFeatures ctx
  let predicted := predictScore st features
  let insights0 := patternInsights features
  let recs := mlRecommendations features
  let risks := riskPatterns features
  let confidence := mlConfidence st features
  let st' := storeAnalysis st features predicted confidence
  let evidence :=
    ["Learned from " ++ toString st'.learning_data.length ++ " previous analyses",
     "Recognizing " ++ toString st'.pattern_weights.length ++ " different patterns"]
  let normalized := pyClampScore predicted
  ({ agent_name := "LearningAgent"
     score := normalized
     confidence := confidence
     evidence := evidence
     recommendations := recs
     insights := insights0 ++ [learningExplanation normalized features]
     risks := risks }, st')

/-- Replaying a sequence of contexts through the Learning agent: the
ordered list of produced scores and the final state. -/
def learningRun (st : LearnState) : List EvidenceContext → List ℤ × LearnState
  | [] => ([], st)
  | c :: cs =>
    let r := learningStep st c
    let rest := learningRun r.2 cs
    (r.1.score :: rest.1, rest.2)

/-- C8, confirmed.  (i) Each call's returned score and confidence are
computed from the state as it was BEFORE that call's own update, and the
state update stores exactly that prediction — the mutation affects only
subsequent calls; (ii) extending a replayed sequence never changes the
scores already produced, so the score sequence and final weights are a
function of the initial state and the ordered input sequence alone
(the embedding is a pure state transformer: the source's only impurities
on this path — the stored wall-clock timestamp and the periodic file dump
— are never read back by prediction, confidence or weight updates). -/
theorem c8_learning_prediction_precedes_update :
    (∀ (st : LearnState) (ctx : EvidenceContext),
        (learningStep st ctx).1.score = pyClampScore (predictScore st (extractFeatures ctx)) ∧
          (learningStep st ctx).1.confidence = mlConfidence st (extractFeatures ctx) ∧
          (learningStep st ctx).2 =
            storeAnalysis st (extractFeatures ctx) (predictScore st (extractFeatures ctx))
              (mlConfidence st (extractFeatures ctx))) ∧
      (∀ (st : LearnState) (ctxs : List EvidenceContext) (c : EvidenceContext),
        learningRun st (ctxs ++ [c]) =
          ((learningRun st ctxs).1 ++ [(learningStep (learningRun st ctxs).2 c).1.score],
            (learningStep (learningRun st ctxs).2 c).2)) := by
  constructor
  · exact fun st ctx => ⟨rfl, rfl, rfl⟩
  · intro st ctxs
    induction ctxs generalizing st with
    | nil => intro c; simp [learningRun]
    | cons d ds ih => intro c; simp [learningRun, ih]

/-- C10, confirmed.  With no persisted learning data, the first call
returns score exactly 5 and confidence exactly 0.5, whatever the evidence
context contains. -/
theorem c10_learning_first_call_is_five_and_half (ctx : EvidenceContext) :
    (learningStep initialLearnState ctx).1.score = 5 ∧
      (learningStep initialLearnState ctx).1.confidence = 1/2 := by
  constructor
  · show pyClampScore (predictScore initialLearnState (extractFeatures ctx)) = 5
    simp [predictScore, initialLearnState, pyClampScore]
  · show mlConfidence initialLearnState (extractFeatures ctx) = 1/2
    simp [mlConfidence, initialLearnState]

/-- C3, counterexample.  On the empty evidence context the freshly
initialized Learning agent — one of the nine orchestrated agents — returns
confidence 0.5, not 0.0, and a combined verdict containing its result has
total_score 5, not 0. -/
theorem c3_learning_confidence_nonzero_on_empty :
    (learningStep initialLearnState emptyContext).1.confidence ≠ 0 ∧
      (combineAgentResults
          [("learning", (learningStep initialLearnState emptyContext).1)]).total_score ≠ 0 := by
  have hc : (learningStep initialLearnState emptyContext).1.confidence = 1/2 := by
    show mlConfidence initialLearnState (extractFeatures emptyContext) = 1/2
    simp [mlConfidence, initialLearnState]
  have hs : (learningStep initialLearnState emptyContext).1.score = 5 := by
    show pyClampScore (predictScore initialLearnState (extractFeatures emptyContext)) = 5
    simp [predictScore, initialLearnState, pyClampScore]
  constructor
  · rw [hc]; norm_num
  · rw [show (combineAgentResults
        [("learning", (learningStep initialLearnState emptyContext).1)]).total_score
      = pyRound1 (if 0 < sumConfidences
            [("learning", (learningStep initialLearnState emptyContext).1)]
          then sumWeightedScores [("learning", (learningStep initialLearnState emptyContext).1)]
            / sumConfidences [("learning", (learningStep initialLearnState emptyContext).1)]
          else 0) from rfl]
    simp only [sumConfidences, sumWeightedScores, List.map_cons, List.map_nil,
      List.sum_cons, List.sum_nil, hc, hs]
    norm_num [pyRound1, pyRound]

/-- `BaseAIAgent.get_confidence_score` (ai_agents.py:62-73), the shared
confidence formula of the Code, Architecture, UI/UX and Security agents:
0 without evidence, otherwise evidence base plus quality boost, capped
at 1. -/
def getConfidenceScore (evidence_count quality_indicators : ℕ) : ℚ :=
  if evidence_count = 0 then 0
  else
    min (min ((evidence_count : ℚ) / 10) 1 + min ((quality_indicators : ℚ) / 5) (3/10)) 1

/-- The common final assembly of the four `BaseAIAgent` heuristic agents'
`analyze` (Code ai_agents.py:193-208, Architecture 586-603, UI/UX
1197-1214, Security 1592-1609): however the sub-heuristics summed the raw
score, the returned score is `max(0, min(score, 10))` and the returned
confidence is `get_confidence_score(len(evidence), len(quality))`.  The
raw score and the two counts are left universal here, so the bounds
theorem covers every evidence context those agents can see. -/
def heuristicScoredOut (raw : ℤ) (evidenceCount qualityCount : ℕ) : ℤ × ℚ :=
  (pyClampScore raw, getConfidenceScore evidenceCount qualityCount)

/-- The `inputs_dict` consumed by `InnovationCreativityAgent._simulate_analysis`
(built by `_extract_inputs`, ai_agents.py:2506-2546). -/
structure InnovationInputs where
  project_summary : String
  problem_statement : String
  features_list : List String
  tech_stack_detected : List String
  comparator_landscape : List String
  constraints : List String
  demo_reference : String
deriving Repr, DecidableEq

/-- The result dictionary of `InnovationCreativityAgent._simulate_analysis`. -/
structure InnovationResult where
  headline_verdict : String
  originality : ℤ
  creative_tech_use : ℤ
  problem_fit_creativity : ℤ
  aha_factor : ℤ
  future_potential : ℤ
  overall_numeric : ℤ
  evidence_points : List String
  specific_opportunities : List String
  risks_or_caveats : List String
  confidence_estimate : ℚ
  calculation_notes : String
deriving Repr, DecidableEq

/-- `InnovationCreativityAgent._simulate_analysis` (ai_agents.py:2697-2795). -/
def innovationSimulate (inp : InnovationInputs) : InnovationResult :=
  let evidence_points :=
    (if inp.project_summary ≠ "" then
      ["Project summary provided: " ++ inp.project_summary.take 100 ++ "..."] else [])
    ++ (if inp.features_list.isEmpty then []
        else ["Features identified: " ++ toString inp.features_list.length ++ " items"])
    ++ (if inp.tech_stack_detected.isEmpty then []
        else ["Tech stack: " ++ String.intercalate ", " inp.tech_stack_detected])
  let originality : ℤ :=
    min 7 ((inp.tech_stack_detected.length : ℤ) + (inp.features_list.length : ℤ))
  let creative : ℤ := min 8 ((inp.tech_stack_detected.length : ℤ) * 2)
  let problem_fit : ℤ := if inp.project_summary ≠ "" then 6 else 3
  let aha : ℤ := min 7 (inp.features_list.length : ℤ)
  let future : ℤ := min 6 (inp.tech_stack_detected.length : ℤ)
  let overall : ℤ :=
    pyTrunc (((originality + creative + problem_fit + aha + future : ℤ) : ℚ) / 5)
  let c0 : ℚ := min ((evidence_points.length : ℚ) / 6) 1
  let confidence :=
    if inp.project_summary ≠ "" ∧ ¬inp.features_list.isEmpty then min (c0 + 1/10) 1 else c0
  let opportunities :=
    (if originality < 6 then
      ["Explore novel approaches to the problem domain",
       "Consider unconventional technology combinations",
       "Research emerging technologies that could differentiate your solution"] else [])
    ++ (if creative < 6 then
      ["Experiment with cutting-edge frameworks and libraries",
       "Integrate AI/ML capabilities for enhanced functionality",
       "Consider blockchain, IoT, or AR/VR technologies"] else [])
    ++ (if problem_fit < 6 then
      ["Conduct deeper user research to understand pain points",
       "Validate problem-solution fit with target users",
       "Refine the value proposition to be more compelling"] else [])
    ++ (if aha < 6 then
      ["Add surprising or delightful features that wow users",
       "Implement gamification or interactive elements",
       "Create memorable user experiences"] else [])
    ++ (if future < 6 then
      ["Design for scalability and extensibility",
       "Plan for platform expansion and API development",
       "Consider monetization and business model innovation"] else [])
  let risks :=
    (if overall < 5 then
      ["Solution may lack differentiation from existing alternatives",
       "Limited innovation could impact competitive advantage",
       "May struggle to attract users or investors"] else [])
    ++ (if inp.project_summary = "" then
      ["Lack of clear project description makes evaluation difficult"] else [])
    ++ (if inp.features_list.isEmpty then
      ["No clear feature set defined - consider documenting key features"] else [])
  { headline_verdict := "Creative use of "
      ++ (if inp.tech_stack_detected.isEmpty then "technology"
          else String.intercalate ", " (inp.tech_stack_detected.take 2))
      ++ " with " ++ toString overall ++ "/10 innovation score"
    originality := originality
    creative_tech_use := creative
    problem_fit_creativity := problem_fit
    aha_factor := aha
    future_potential := future
    overall_numeric := overall
    evidence_points := evidence_points
    specific_opportunities := opportunities.take 6
    risks_or_caveats := risks.take 4
    confidence_estimate := confidence
    calculation_notes := "Weighted average with emphasis on originality ("
      ++ toString originality ++ ") and creative tech use (" ++ toString creative ++ ")" }

/-- The (score, confidence) pair `InnovationCreativityAgent.analyze`
(ai_agents.py:2473-2503) returns: the simulated overall score clamped into
[0, 10] and the simulated confidence estimate.  (The agent's insights are
presentation strings no claim references.) -/
def innovationScoredOut (inp : InnovationInputs) : ℤ × ℚ :=
  ((pyClampScore (innovationSimulate inp).overall_numeric),
    (innovationSimulate inp).confidence_estimate)

/-- The `inputs_dict` of `FunctionalityCompletenessAgent._simulate_analysis`. -/
structure FunctionalityInputs where
  features_list : List String
  user_flows : List String
  demo_reference : String
  api_endpoints : List String
  test_summary : String
deriving Repr, DecidableEq

/-- One row of the simulated flow-coverage table: (flow, implemented, notes). -/
abbrev FlowRow : Type := String × Bool × String

/-- The result of `FunctionalityCompletenessAgent._simulate_analysis`
(ai_agents.py:3121-3188). -/
structure FunctionalityResult where
  working_claim : String
  flow_coverage_table : List FlowRow
  quality_signals : List String
  gaps_or_edge_cases : List String
  overall_numeric : ℤ
  confidence_estimate : ℚ
deriving Repr, DecidableEq

/-- `FunctionalityCompletenessAgent._simulate_analysis` (ai_agents.py:3121-3188). -/
def functionalitySimulate (inp : FunctionalityInputs) : FunctionalityResult :=
  let confidence : ℚ := min ((2/10)
    + (if inp.demo_reference ≠ "" then 2/10 else 0)
    + (if inp.api_endpoints.isEmpty then 0 else 2/10)
    + (if inp.test_summary ≠ "" then 2/10 else 0)
    + (if inp.user_flows.isEmpty then 0 else 2/10)) 1
  let n := inp.features_list.length
  let table : List FlowRow := (inp.features_list.take 8).enum.map (fun p =>
    let implemented : Bool := decide ((p.1 : ℚ) < (7/10) * (n : ℚ))
    (p.2.take 50, implemented, if implemented then "Working" else "Incomplete"))
  let quality_signals :=
    (if inp.test_summary ≠ "" then ["Test results: " ++ inp.test_summary] else [])
    ++ (if inp.demo_reference ≠ "" then ["Demo available"] else [])
    ++ (if inp.api_endpoints.isEmpty then []
        else ["API endpoints: " ++ toString inp.api_endpoints.length ++ " found"])
  let gaps :=
    (if inp.test_summary = "" then ["No test results provided"] else [])
    ++ (if inp.demo_reference = "" then ["No demo reference provided"] else [])
    ++ (if inp.api_endpoints.isEmpty then ["No API endpoints identified"] else [])
  let implemented_flows := (table.filter (fun r => r.2.1)).length
  let total_flows := table.length
  let ratio : ℚ :=
    if 0 < total_flows then (implemented_flows : ℚ) / (total_flows : ℚ) else 0
  let base : ℚ := ratio * 8 + (if inp.test_summary ≠ "" then 1 else 0)
    + (if inp.demo_reference ≠ "" then 1 else 0)
  { working_claim := "Core functionality implemented with " ++ toString implemented_flows
      ++ "/" ++ toString total_flows ++ " flows working"
    flow_coverage_table := table
    quality_signals := quality_signals
    gaps_or_edge_cases := gaps
    overall_numeric := min (pyTrunc base) 10
    confidence_estimate := confidence }

/-- The (score, confidence) pair `FunctionalityCompletenessAgent.analyze`
(ai_agents.py:2947-2976) returns. -/
def functionalityScoredOut (inp : FunctionalityInputs) : ℤ × ℚ :=
  ((pyClampScore (functionalitySimulate inp).overall_numeric),
    (functionalitySimulate inp).confidence_estimate)

/-- The `inputs_dict` of `TechnicalComplexityAgent._simulate_analysis`. -/
structure TechnicalInputs where
  tech_stack_detected : List String
  architecture_notes : String
  data_flows : List String
  performance_signals : List String
  security_signals : List String
deriving Repr, DecidableEq

/-- The result of `TechnicalComplexityAgent._simulate_analysis`
(ai_agents.py:3566-3638). -/
structure TechnicalResult where
  complexity_drivers : List String
  tradeoff_rationale : String
  architecture_style : String
  integration_surface_area : ℤ
  overall_numeric : ℤ
  confidence_estimate : ℚ
deriving Repr, DecidableEq

/-- `TechnicalComplexityAgent._simulate_analysis` (ai_agents.py:3566-3638).
The style test `'pipeline' in str(data_flows).lower()` matches the Python
repr of the list, in which a separator-free word occurs exactly when it
occurs in one of the elements. -/
def technicalSimulate (inp : TechnicalInputs) : TechnicalResult :=
  let drivers :=
    (if 5 < inp.tech_stack_detected.length then
      ["Multi-technology stack: " ++ toString inp.tech_stack_detected.length
        ++ " technologies"] else [])
    ++ (if inp.architecture_notes ≠ "" then
      ["Architecture documented with design decisions"] else [])
    ++ (if inp.data_flows.isEmpty then []
        else ["Data processing pipelines: " ++ toString inp.data_flows.length ++ " flows"])
    ++ (if inp.performance_signals.isEmpty then []
        else ["Performance optimization: " ++ toString inp.performance_signals.length
          ++ " signals"])
    ++ (if inp.security_signals.isEmpty then []
        else ["Security implementation: " ++ toString inp.security_signals.length
          ++ " components"])
  let style :=
    if strContains (pyToLower inp.architecture_notes) "microservices" then "microservices"
    else if strContains (pyToLower inp.architecture_notes) "event" then "event-driven"
    else if inp.data_flows.any (fun s => strContains (pyToLower s) "pipeline") then "data-pipeline"
    else if 3 < inp.tech_stack_detected.length then "hybrid"
    else if 1 < inp.tech_stack_detected.length then "client-server"
    else "single-tier"
  let integration : ℤ := min ((inp.tech_stack_detected.length : ℤ)
    + (inp.performance_signals.length : ℤ) + (inp.security_signals.length : ℤ)) 10
  let base : ℤ := (drivers.length : ℤ) * 2
    + (if inp.architecture_notes ≠ "" then 1 else 0)
    + (if inp.data_flows.isEmpty then 0 else 1)
    + (if inp.performance_signals.isEmpty then 0 else 1)
    + (if inp.security_signals.isEmpty then 0 else 1)
  let distinct := ((inp.tech_stack_detected ++ inp.performance_signals
      ++ inp.security_signals).eraseDups).length
    + (if inp.architecture_notes ≠ "" then 1 else 0)
    + (if inp.data_flows.isEmpty then 0 else 1)
  { complexity_drivers := drivers.take 6
    tradeoff_rationale := "Balanced " ++ style ++ " architecture with "
      ++ toString inp.tech_stack_detected.length ++ " technologies"
    architecture_style := style
    integration_surface_area := integration
    overall_numeric := min base 10
    confidence_estimate := min ((distinct : ℚ) / 6) 1 }

/-- The (score, confidence) pair `TechnicalComplexityAgent.analyze`
(ai_agents.py:3323-3350) returns. -/
def technicalScoredOut (inp : TechnicalInputs) : ℤ × ℚ :=
  ((pyClampScore (technicalSimulate inp).overall_numeric),
    (technicalSimulate inp).confidence_estimate)

/-- The `inputs_dict` of `UIUXPolishAgent._simulate_analysis`. -/
structure PolishInputs where
  screenshots : List String
  ui_routes_or_pages : List String
  brand_or_theme_notes : String
  copy_examples : List String
deriving Repr, DecidableEq

/-- The result of `UIUXPolishAgent._simulate_analysis` (ai_agents.py:3998-4070). -/
structure PolishResult where
  quick_take : String
  visual_polish : ℤ
  spacing_alignment : ℤ
  hierarchy_layout : ℤ
  color_contrast : ℤ
  typography : ℤ
  overall_numeric : ℤ
  strengths : List String
  fix_first : List String
  confidence_estimate : ℚ
  limitations : String
deriving Repr, DecidableEq

/-- `UIUXPolishAgent._simulate_analysis` (ai_agents.py:3998-4070). -/
def polishSimulate (inp : PolishInputs) : PolishResult :=
  let c0 : ℚ :=
    if 2 ≤ inp.screenshots.length then 8/10
    else if inp.screenshots.length = 1 then 6/10
    else 3/10
  let c1 := if inp.ui_routes_or_pages.isEmpty then c0 else min (c0 + 1/10) 1
  let c2 := if inp.copy_examples.isEmpty then c1 else min (c1 + 1/10) 1
  let visual : ℤ := if inp.screenshots.isEmpty then 4 else 6
  let spacing : ℤ := if inp.ui_routes_or_pages.isEmpty then 4 else 6
  let hierarchy : ℤ := if inp.brand_or_theme_notes ≠ "" then 6 else 4
  let color : ℤ := if inp.screenshots.isEmpty then 3 else 5
  let typography : ℤ := if inp.copy_examples.isEmpty then 4 else 6
  let overall : ℤ :=
    pyTrunc (((visual + spacing + hierarchy + color + typography : ℤ) : ℚ) / 5)
  let strengths0 :=
    (if inp.screenshots.isEmpty then [] else ["Visual assets provided for evaluation"])
    ++ (if inp.ui_routes_or_pages.isEmpty then []
        else ["Multiple UI pages identified: " ++ toString inp.ui_routes_or_pages.length])
    ++ (if inp.brand_or_theme_notes ≠ "" then
      ["Design system considerations documented"] else [])
    ++ (if inp.copy_examples.isEmpty then [] else ["UI copy examples available"])
  let strengths := if strengths0.isEmpty then ["Basic UI structure detected"] else strengths0
  let fix_first :=
    (if inp.screenshots.isEmpty then ["Provide screenshots for visual evaluation"] else [])
    ++ (if inp.ui_routes_or_pages.isEmpty then ["Document UI page structure"] else [])
    ++ (if inp.brand_or_theme_notes = "" then ["Add design system documentation"] else [])
    ++ (if inp.copy_examples.isEmpty then ["Include UI copy examples"] else [])
  { quick_take := "UI structure with " ++ toString inp.ui_routes_or_pages.length
      ++ " pages, "
      ++ (if inp.screenshots.isEmpty then "no visual assets" else "visual assets available")
    visual_polish := visual
    spacing_alignment := spacing
    hierarchy_layout := hierarchy
    color_contrast := color
    typography := typography
    overall_numeric := overall
    strengths := strengths.take 5
    fix_first := fix_first.take 5
    confidence_estimate := c2
    limitations := if inp.screenshots.isEmpty then
      "No screenshots provided - evaluation based on structure only" else "" }

/-- The (score, confidence) pair `UIUXPolishAgent.analyze`
(ai_agents.py:3769-3832) returns. -/
def polishScoredOut (inp : PolishInputs) : ℤ × ℚ :=
  ((pyClampScore (polishSimulate inp).overall_numeric),
    (polishSimulate inp).confidence_estimate)

/-- The invariant claimed for every agent result: an integer score in
[0, 10] and a confidence in [0, 1]. -/
def scoredInBounds (p : ℤ × ℚ) : Prop := 0 ≤ p.1 ∧ p.1 ≤ 10 ∧ 0 ≤ p.2 ∧ p.2 ≤ 1

theorem pyClampScore_bounds (s : ℤ) : 0 ≤ pyClampScore s ∧ pyClampScore s ≤ 10 :=
  ⟨le_max_left _ _, max_le (by norm_num) (min_le_right _ _)⟩

theorem getConfidenceScore_bounds (ev qc : ℕ) :
    0 ≤ getConfidenceScore ev qc ∧ getConfidenceScore ev qc ≤ 1 := by
  unfold getConfidenceScore
  split
  · norm_num
  · refine ⟨le_min (add_nonneg ?_ ?_) (by norm_num), min_le_right _ _⟩
    · exact le_min (by positivity) (by norm_num)
    · exact le_min (by positivity) (by norm_num)

theorem mlConfidence_bounds (st : LearnState) (f : LearnFeatures) :
    0 ≤ mlConfidence st f ∧ mlConfidence st f ≤ 1 := by
  unfold mlConfidence
  split
  · norm_num
  · exact ⟨le_min ((by norm_num : (0:ℚ) ≤ 1/10).trans (le_max_right _ _)) (by norm_num),
      min_le_right _ _⟩

theorem confBoost_bounds (x : ℚ) (P : Prop) [Decidable P] (hx0 : 0 ≤ x) (hx1 : x ≤ 1) :
    0 ≤ (if P then min (x + 1/10) 1 else x) ∧ (if P then min (x + 1/10) 1 else x) ≤ 1 := by
  split
  · exact ⟨le_min (by linarith) (by norm_num), min_le_right _ _⟩
  · exact ⟨hx0, hx1⟩

theorem confBoostFlip_bounds (x : ℚ) (P : Prop) [Decidable P] (hx0 : 0 ≤ x) (hx1 : x ≤ 1) :
    0 ≤ (if P then x else min (x + 1/10) 1) ∧ (if P then x else min (x + 1/10) 1) ≤ 1 := by
  split
  · exact ⟨hx0, hx1⟩
  · exact ⟨le_min (by linarith) (by norm_num), min_le_right _ _⟩

theorem innovationConfidence_bounds (inp : InnovationInputs) :
    0 ≤ (innovationSimulate inp).confidence_estimate ∧
      (innovationSimulate inp).confidence_estimate ≤ 1 := by
  dsimp only [innovationSimulate]
  exact confBoost_bounds _ _ (le_min (by positivity) (by norm_num)) (min_le_right _ _)

theorem functionalityConfidence_bounds (inp : FunctionalityInputs) :
    0 ≤ (functionalitySimulate inp).confidence_estimate ∧
      (functionalitySimulate inp).confidence_estimate ≤ 1 := by
  dsimp only [functionalitySimulate]
  have h1 : (0:ℚ) ≤ if inp.demo_reference ≠ "" then 2/10 else 0 := by split <;> norm_num
  have h2 : (0:ℚ) ≤ if inp.api_endpoints.isEmpty then 0 else 2/10 := by split <;> norm_num
  have h3 : (0:ℚ) ≤ if inp.test_summary ≠ "" then 2/10 else 0 := by split <;> norm_num
  have h4 : (0:ℚ) ≤ if inp.user_flows.isEmpty then 0 else 2/10 := by split <;> norm_num
  exact ⟨le_min (by linarith) (by norm_num), min_le_right _ _⟩

theorem technicalConfidence_bounds (inp : TechnicalInputs) :
    0 ≤ (technicalSimulate inp).confidence_estimate ∧
      (technicalSimulate inp).confidence_estimate ≤ 1 := by
  dsimp only [technicalSimulate]
  exact ⟨le_min (by positivity) (by norm_num), min_le_right _ _⟩

theorem polishConfidence_bounds (inp : PolishInputs) :
    0 ≤ (polishSimulate inp).confidence_estimate ∧
      (polishSimulate inp).confidence_estimate ≤ 1 := by
  dsimp only [polishSimulate]
  have hc0 : (0:ℚ) ≤ (if 2 ≤ inp.screenshots.length then (8:ℚ)/10
        else if inp.screenshots.length = 1 then 6/10 else 3/10) ∧
      (if 2 ≤ inp.screenshots.length then (8:ℚ)/10
        else if inp.screenshots.length = 1 then 6/10 else 3/10) ≤ 1 := by
    split_ifs <;> norm_num
  have hc1 := confBoostFlip_bounds _ (inp.ui_routes_or_pages.isEmpty = true) hc0.1 hc0.2
  exact confBoostFlip_bounds _ (inp.copy_examples.isEmpty = true) hc1.1 hc1.2

/-- C7, confirmed.  All nine agents return a clamped integer score in
[0, 10] and a confidence in [0, 1], for every evidence context: the four
heuristic agents (Code, Architecture, UI/UX, Security) through their shared
final assembly, quantified over every raw score and every pair of
evidence/quality counts their sub-heuristics can produce; the four
specialized agents (Innovation, Functionality, Technical, UI/UX Polish)
quantified over every extracted inputs dict; and the Learning agent over
every internal state and context. -/
theorem c7_all_agent_scores_and_confidences_bounded :
    (∀ (raw : ℤ) (ev qc : ℕ), scoredInBounds (heuristicScoredOut raw ev qc)) ∧
      (∀ inp : InnovationInputs, scoredInBounds (innovationScoredOut inp)) ∧
      (∀ inp : FunctionalityInputs, scoredInBounds (functionalityScoredOut inp)) ∧
      (∀ inp : TechnicalInputs, scoredInBounds (technicalScoredOut inp)) ∧
      (∀ inp : PolishInputs, scoredInBounds (polishScoredOut inp)) ∧
      (∀ (st : LearnState) (ctx : EvidenceContext),
        scoredInBounds ((learningStep st ctx).1.score, (learningStep st ctx).1.confidence)) := by
  refine ⟨?_, ?_, ?_, ?_, ?_, ?_⟩
  · intro raw ev qc
    have hs := pyClampScore_bounds raw
    have hc := getConfidenceScore_bounds ev qc
    exact ⟨hs.1, hs.2, hc.1, hc.2⟩
  · intro inp
    have hs := pyClampScore_bounds (innovationSimulate inp).overall_numeric
    have hc := innovationConfidence_bounds inp
    exact ⟨hs.1, hs.2, hc.1, hc.2⟩
  · intro inp
    have hs := pyClampScore_bounds (functionalitySimulate inp).overall_numeric
    have hc := functionalityConfidence_bounds inp
    exact ⟨hs.1, hs.2, hc.1, hc.2⟩
  · intro inp
    have hs := pyClampScore_bounds (technicalSimulate inp).overall_numeric
    have hc := technicalConfidence_bounds inp
    exact ⟨hs.1, hs.2, hc.1, hc.2⟩
  · intro inp
    have hs := pyClampScore_bounds (polishSimulate inp).overall_numeric
    have hc := polishConfidence_bounds inp
    exact ⟨hs.1, hs.2, hc.1, hc.2⟩
  · intro st ctx
    have hs := pyClampScore_bounds (predictScore st (extractFeatures ctx))
    have hc := mlConfidence_bounds st (extractFeatures ctx)
    exact ⟨hs.1, hs.2, hc.1, hc.2⟩

/-- What `InnovationCreativityAgent._extract_inputs` produces on the empty
evidence context: every extractor early-returns on an empty README, an
empty file tree and absent artifacts. -/
def emptyInnovationInputs : InnovationInputs :=
  { project_summary := "", problem_statement := "", features_list := []
    tech_stack_detected := [], comparator_landscape := [], constraints := []
    demo_reference := "" }

/-- C3, amended.  On the empty evidence context not every agent returns
confidence 0.0: the freshly initialized Learning agent returns score 5
with confidence 0.5 (its no-data defaults), so a combined verdict whose
participants include the Learning agent has total_score 5, not 0; the
Innovation agent, by contrast, does degrade to confidence 0.0 and score 0
on the empty extracted inputs. -/
theorem c3_empty_context_learning_breaks_zero_confidence :
    (learningStep initialLearnState emptyContext).1.score = 5 ∧
      (learningStep initialLearnState emptyContext).1.confidence = 1/2 ∧
      (innovationSimulate emptyInnovationInputs).confidence_estimate = 0 ∧
      (innovationSimulate emptyInnovationInputs).overall_numeric = 0 ∧
      (combineAgentResults
        [("learning", (learningStep initialLearnState emptyContext).1)]).total_score = 5 := by
  have hc : (learningStep initialLearnState emptyContext).1.confidence = 1/2 := by
    show mlConfidence initialLearnState (extractFeatures emptyContext) = 1/2
    simp [mlConfidence, initialLearnState]
  have hs : (learningStep initialLearnState emptyContext).1.score = 5 := by
    show pyClampScore (predictScore initialLearnState (extractFeatures emptyContext)) = 5
    simp [predictScore, initialLearnState, pyClampScore]
  refine ⟨hs, hc, ?_, ?_, ?_⟩
  · dsimp only [innovationSimulate, emptyInnovationInputs]
    norm_num
  · dsimp only [innovationSimulate, emptyInnovationInputs]
    norm_num [pyTrunc]
  · rw [show (combineAgentResults
        [("learning", (learningStep initialLearnState emptyContext).1)]).total_score
      = pyRound1 (if 0 < sumConfidences
            [("learning", (learningStep initialLearnState emptyContext).1)]
          then sumWeightedScores [("learning", (learningStep initialLearnState emptyContext).1)]
            / sumConfidences [("learning", (learningStep initialLearnState emptyContext).1)]
          else 0) from rfl]
    simp only [sumConfidences, sumWeightedScores, List.map_cons, List.map_nil,
      List.sum_cons, List.sum_nil, hc, hs]
    norm_num [pyRound1, pyRound]

/-- Everything after the first occurrence of the separator `": "`, if any. -/
def afterFirstSep : List Char → Option (List Char)
  | [] => none
  | c :: rest =>
    if c = ':' then
      match rest with
      | ' ' :: tail => some tail
      | _ => afterFirstSep rest
    else afterFirstSep rest

/-- The prefix strip of `AIGrader._deduplicate_recommendations`
(ai_grader.py:661-675): `rec.split(': ', 1)[-1] if ': ' in rec else rec`,
i.e. everything after the first occurrence of `": "`, or the string itself
if none. -/
def stripAgentTag (s : String) : String :=
  match afterFirstSep s.data with
  | some tail => ⟨tail⟩
  | none => s

/-- The loop of `AIGrader._deduplicate_recommendations`: keep the first
entry (with its agent prefix) for each case-insensitively-normalized
stripped text, preserving order. -/
def dedupRecsGo (seen : List String) : List String → List String
  | [] => []
  | r :: rest =>
    let clean := pyToLower (stripAgentTag r)
    if clean ∈ seen then dedupRecsGo seen rest
    else r :: dedupRecsGo (clean :: seen) rest

/-- `AIGrader._deduplicate_recommendations` (ai_grader.py:661-675). -/
def dedupRecommendations (l : List String) : List String := dedupRecsGo [] l

/-- `AIGrader._map_ai_results_to_grades` applies
`_deduplicate_recommendations` to the combined verdict's (already
truncated) recommendation list (ai_grader.py:193). -/
def graderRecommendations (combined : CombinedResult) : List String :=
  dedupRecommendations combined.recommendations

/-- Two agents contributing the same recommendation text up to case. -/
def exDupRecs : List (String × AgentAnalysis) :=
  [("code", { bareResult "code" 5 1 with recommendations := ["Fix the tests"] }),
   ("architecture",
     { bareResult "architecture" 5 1 with recommendations := ["fix the tests"] })]

/-- C5, counterexample.  The combined verdict keeps BOTH case-insensitive
duplicates — its recommendation list is not deduplicated (it is not even a
fixed point of the grader's own deduplication). -/
theorem c5_combined_recommendations_not_deduplicated :
    (combineAgentResults exDupRecs).recommendations =
        ["code: Fix the tests", "architecture: fix the tests"] ∧
      dedupRecommendations (combineAgentResults exDupRecs).recommendations ≠
        (combineAgentResults exDupRecs).recommendations := by
  constructor <;> decide

theorem dedupRecsGo_sublist (l : List String) :
    ∀ seen, (dedupRecsGo seen l).Sublist l := by
  induction l with
  | nil => intro seen; simp [dedupRecsGo]
  | cons r rest ih =>
    intro seen
    simp only [dedupRecsGo]
    split
    · exact (ih seen).cons r
    · exact (ih _).cons₂ r

theorem dedupRecsGo_nodup (l : List String) :
    ∀ seen, ((dedupRecsGo seen l).map (fun s => pyToLower (stripAgentTag s))).Nodup ∧
      ∀ s ∈ dedupRecsGo seen l, pyToLower (stripAgentTag s) ∉ seen := by
  induction l with
  | nil => intro seen; simp [dedupRecsGo]
  | cons r rest ih =>
    intro seen
    simp only [dedupRecsGo]
    split
    · exact ih seen
    · obtain ⟨hnd, hout⟩ := ih (pyToLower (stripAgentTag r) :: seen)
      refine ⟨List.nodup_cons.2 ⟨?_, hnd⟩, ?_⟩
      · intro hmem
        obtain ⟨s, hs, heq⟩ := List.mem_map.1 hmem
        exact hout s hs (heq ▸ List.mem_cons_self _ _)
      · intro s hs
        rcases List.mem_cons.1 hs with h | h
        · subst h
          assumption
        · intro hmem
          exact hout s h (List.mem_cons_of_mem _ hmem)

/-- C5, amended.  The combiner concatenates the agent-tagged lists and
truncates them directly — evidence to 20, recommendations to 15, risks to
10, insights unbounded — WITHOUT deduplicating; the case-insensitive
first-occurrence-wins deduplication is applied afterwards, by the grader,
to the already-truncated recommendation list (and that deduplication does
preserve order and leaves no case-insensitive duplicate behind). -/
theorem c5_truncate_then_grader_dedup (rs : List (String × AgentAnalysis)) :
    (combineAgentResults rs).evidence = (allTagged (fun r => r.evidence) rs).take 20 ∧
      (combineAgentResults rs).recommendations =
        (allTagged (fun r => r.recommendations) rs).take 15 ∧
      (combineAgentResults rs).risks = (allTagged (fun r => r.risks) rs).take 10 ∧
      (combineAgentResults rs).insights = allTagged (fun r => r.insights) rs ∧
      graderRecommendations (combineAgentResults rs) =
        dedupRecommendations ((allTagged (fun r => r.recommendations) rs).take 15) ∧
      (∀ l : List String, (dedupRecommendations l).Sublist l) ∧
      (∀ l : List String,
        ((dedupRecommendations l).map (fun s => pyToLower (stripAgentTag s))).Nodup) := by
  refine ⟨rfl, rfl, rfl, rfl, rfl, ?_, ?_⟩
  · exact fun l => dedupRecsGo_sublist l []
  · exact fun l => (dedupRecsGo_nodup l []).1

end HackGrader
